import Mathlib

/-!
Verification of the tenant-resolution and database-routing layer of a
multi-tenant restaurant-management backend, together with the soft-delete
managers and the inventory adjustment logic.

The definitions below are a shallow embedding of the Python source:
`FB/middleware.py` (TenantMiddleware), `Restaurants/views.py`
(`_ensure_alias_ready`, `RouterTenantContextMixin`,
`RegisterDBByClientAPIView`, `RegisterTenantDatabaseView`),
`Restaurants/serializers.py` (AliasContextMixin) and
`Restaurants/models.py` (ActiveManager / DeletedManager / BaseModel,
InventoryItem.adjust_qty and the `_apply_movement_to_item` post-save
signal).  The tenant-context slot (`FB/db_router.py`) and the registry
helpers (`Restaurants/utils.py`) are not part of the sources; where they
are needed they are modelled from the specification and marked as such.
-/

/-- Error taxonomy of the request path: DRF AuthenticationFailed,
DRF APIException, Python ValueError / RuntimeError / AttributeError /
TypeError, and a timeout outcome. -/
inductive Err
  | authenticationFailed
  | apiException
  | valueError
  | runtimeError
  | attributeError
  | typeError
  | timeout
  deriving DecidableEq, Repr

/-- Python truthiness of an optional string: `None` and the empty string
are falsy, every other string is truthy. -/
def truthy : Option String → Bool
  | none => false
  | some s => !s.isEmpty

/-- Connection parameters of one tenant database (settings.DATABASES
entry: NAME, USER, PASSWORD, HOST, PORT). -/
structure ConnParams where
  name : String
  user : String
  password : String
  host : String
  port : Nat
  deriving DecidableEq, Repr

/-- The dynamic tenant registry: the alias → connection-parameter map
(settings.DATABASES) plus the list of aliases whose schema creation has
run (each registration appends the alias once). -/
structure Registry where
  tenants : List (String × ConnParams)
  schemaInits : List String
  deriving DecidableEq, Repr

/-- Membership of an alias in settings.DATABASES. -/
def Registry.registered (r : Registry) (a : String) : Bool :=
  r.tenants.any (fun p => p.1 == a)

/-- Descriptor lookup: the connection parameters stored for an alias. -/
def Registry.paramsOf (r : Registry) (a : String) : Option ConnParams :=
  (r.tenants.find? (fun p => p.1 == a)).map Prod.snd

/-- A client identifier as accepted by the provisioning helpers: a numeric
client id or a client username. -/
inductive ClientIdent
  | byId (n : Nat)
  | byUsername (u : String)
  deriving DecidableEq, Repr

/-- Modelled from the spec: `Restaurants/utils.py` is not under src/.
Spec section 4.1 requires a deterministic canonical-alias derivation; the
views show the numeric convention `client_<id>` (an alias starting with
`client_` is parsed back to a client id), and the username rule is an
ad-hoc deterministic convention. -/
def deriveAlias : ClientIdent → String
  | .byId n => "client_" ++ toString n
  | .byUsername u => u

/-- Modelled from the spec: connection parameters synthesized by naming
convention from the alias (spec section 4.1), deterministic by
construction. -/
def synthesizeParams (a : String) : ConnParams :=
  { name := a, user := "user_" ++ a, password := "secret_" ++ a
    host := "localhost", port := 5432 }

/-- Modelled from the spec: `ensure(aliasOrClientIdentifier)` of
`Restaurants/utils.py` (not under src/): derive the canonical alias; if it
is already registered return it unchanged, otherwise register the
synthesized parameters and run schema creation once for the new alias. -/
def ensure (x : ClientIdent) (r : Registry) : String × Registry :=
  let a := deriveAlias x
  if r.registered a then (a, r)
  else (a, { tenants := (a, synthesizeParams a) :: r.tenants
             schemaInits := a :: r.schemaInits })

/-- The tenant payload attached to a request (token claims): the `alias`
key (absent modelled as `none`), and the optional `client_username` /
`client_id` claims, as read by `_get_tenant_from_request` and
`_ensure_alias_ready` in `Restaurants/views.py`. -/
structure TenantInfo where
  aliasVal : Option String
  client_username : Option String
  client_id : Option String
  deriving DecidableEq, Repr

/-- `Restaurants/views.py` `_ensure_alias_ready`: raise
AuthenticationFailed when the tenant payload or its alias key is absent;
when the alias is not in settings.DATABASES, provision it from the
client_username claim, the client_id claim, or the numeric suffix of a
`client_`-prefixed alias (Python `int(...)` failures surface as
ValueError); otherwise raise APIException. -/
def ensure_alias_ready (tenant : Option TenantInfo) (r : Registry) :
    Except Err (String × Registry) :=
  match tenant with
  | none => .error .authenticationFailed
  | some t =>
    match t.aliasVal with
    | none => .error .authenticationFailed
    | some a =>
      if r.registered a then .ok (a, r)
      else if truthy t.client_username then
        .ok (a, (ensure (.byUsername (t.client_username.getD "")) r).2)
      else if truthy t.client_id then
        match (t.client_id.getD "").toNat? with
        | some n => .ok (a, (ensure (.byId n) r).2)
        | none => .error .valueError
      else if a.startsWith "client_" then
        match (a.drop 7).toNat? with
        | some n => .ok (a, (ensure (.byId n) r).2)
        | none => .error .valueError
      else .error .apiException

/-- Modelled from the spec: `ensure_alias_for_client` of
`Restaurants/utils.py` (not under src/): run the registry `ensure`
operation for the given client id, else for the given username, and fail
when neither is provided. -/
def ensure_alias_for_client (client_id : Option Nat)
    (client_username : Option String) (r : Registry) :
    Except Err (String × Registry) :=
  match client_id with
  | some n => .ok (ensure (.byId n) r)
  | none =>
    match client_username with
    | some u => .ok (ensure (.byUsername u) r)
    | none => .error .valueError

/-- Modelled from the spec: `FB/db_router.py` is not under src/.  Per spec
section 9 the source keeps the current tenant in a module-level global
mutable variable (process-wide, shared by all units of work).
`set_current_tenant` overwrites that single slot. -/
def set_current_tenant (a : Option String) (_slot : Option String) :
    Option String :=
  a

/-- Modelled from the spec: `get_current_tenant` of `FB/db_router.py`
reads the single module-level slot. -/
def get_current_tenant (slot : Option String) : Option String :=
  slot

/-- One operation of a unit of work on the shared tenant-context slot. -/
inductive CtxOp
  | setT (a : Option String)
  | readT
  deriving DecidableEq, Repr

/-- A context operation tagged with the unit of work (request) issuing
it. -/
structure TOp where
  unit : Nat
  op : CtxOp
  deriving DecidableEq, Repr

/-- Execute a schedule of tagged context operations against the single
shared slot, recording for each read which alias the issuing unit
observed. -/
def runCtx : List TOp → Option String → List (Nat × Option String)
  | [], _ => []
  | ⟨_, .setT a⟩ :: rest, s => runCtx rest (set_current_tenant a s)
  | ⟨u, .readT⟩ :: rest, s => (u, get_current_tenant s) :: runCtx rest s

/-- The context operations of one request handled by
`RouterTenantContextMixin`: set the resolved alias (`initial`), perform
data access reading the current tenant, clear the context
(`finalize_response`). -/
def requestCtxOps (u : Nat) (a : String) : List TOp :=
  [⟨u, .setT (some a)⟩, ⟨u, .readT⟩, ⟨u, .setT none⟩]

/-- `Interleaving zs xs ys` holds when `zs` is an interleaving of `xs`
and `ys` that preserves the order of each. -/
inductive Interleaving : List TOp → List TOp → List TOp → Prop
  | nil : Interleaving [] [] []
  | left {x : TOp} {xs ys zs : List TOp} :
      Interleaving zs xs ys → Interleaving (x :: zs) (x :: xs) ys
  | right {y : TOp} {xs ys zs : List TOp} :
      Interleaving zs xs ys → Interleaving (y :: zs) xs (y :: ys)

/-- `FB/middleware.py` `TenantMiddleware.process_request`: take the
X-Tenant-ID header with default `vcnew_db`; if it is a configured
database use it, otherwise print a warning and use `vcnew_db`.  The
returned string is the alias stored into the tenant context. -/
def mwTenant (r : Registry) (header : Option String) : String :=
  let tenant := header.getD "vcnew_db"
  if r.registered tenant then tenant else "vcnew_db"

/-- An inbound HTTP request as seen by the tenant layer: the X-Tenant-ID
header, `request.user.tenant` and `request.tenant_info`. -/
structure Request where
  xTenantId : Option String
  userTenant : Option TenantInfo
  tenantInfo : Option TenantInfo
  deriving DecidableEq, Repr

/-- `Restaurants/views.py` `_get_tenant_from_request`:
`request.user.tenant or request.tenant_info`. -/
def getTenantFromRequest (req : Request) : Option TenantInfo :=
  match req.userTenant with
  | some t => some t
  | none => req.tenantInfo

/-- Observable events of one request passing through the middleware and a
`RouterTenantContextMixin` view: tenant-context writes performed by the
middleware and by the view, handler execution, and data access against an
alias. -/
inductive Ev
  | mwSet (a : Option String)
  | viewSet (a : Option String)
  | handlerRun
  | dbAccess (a : String)
  deriving DecidableEq, Repr

/-- Events that clear the tenant context (a `set_current_tenant(None)`
call from either layer). -/
def isClearEv : Ev → Bool
  | .mwSet none => true
  | .viewSet none => true
  | _ => false

/-- Events that bind a tenant alias into the context (from either
layer). -/
def isTenantSetEv : Ev → Bool
  | .mwSet (some _) => true
  | .viewSet (some _) => true
  | _ => false

/-- Context writes performed by the view layer that bind an alias. -/
def isViewSetSomeEv : Ev → Bool
  | .viewSet (some _) => true
  | _ => false

/-- Context writes performed by the middleware that bind an alias. -/
def isMwSetSomeEv : Ev → Bool
  | .mwSet (some _) => true
  | _ => false

/-- Data-access events. -/
def isDbAccessEv : Ev → Bool
  | .dbAccess _ => true
  | _ => false

/-- Handler-execution events. -/
def isHandlerEv : Ev → Bool
  | .handlerRun => true
  | _ => false

/-- Replay the context writes of an event list over the shared slot. -/
def applyEv (s : Option String) : Ev → Option String
  | .mwSet a => set_current_tenant a s
  | .viewSet a => set_current_tenant a s
  | _ => s

/-- The tenant slot after all events of a request ran. -/
def runSlot (evs : List Ev) (s : Option String) : Option String :=
  evs.foldl applyEv s

/-- How the business-logic handler exits: normal return, raised error, or
timeout. -/
inductive Outcome
  | ok
  | exn
  | timeout
  deriving DecidableEq, Repr

/-- The response produced for the caller. -/
inductive RespKind
  | success
  | errorResp (e : Err)
  deriving DecidableEq, Repr

/-- Result of processing one request through the full stack. -/
structure PipeResult where
  events : List Ev
  response : RespKind
  registry : Registry
  deriving DecidableEq, Repr

/-- One request processed by `TenantMiddleware.process_request`, DRF
dispatch of a `RouterTenantContextMixin` view (`initial` resolves the
alias and sets the context; an exception in `initial` skips the handler
and is converted into an error response; `finalize_response` always runs
and clears the context in its `finally` block) and
`TenantMiddleware.process_response` (clears the context again). -/
def pipeline (r0 : Registry) (req : Request) (outcome : Outcome) :
    PipeResult :=
  let t := mwTenant r0 req.xTenantId
  match ensure_alias_ready (getTenantFromRequest req) r0 with
  | .error e =>
    { events := [Ev.mwSet (some t), Ev.viewSet none, Ev.mwSet none]
      response := .errorResp e
      registry := r0 }
  | .ok (a, r1) =>
    let hevs : List Ev :=
      match outcome with
      | .ok => [Ev.handlerRun, Ev.dbAccess a]
      | .exn => [Ev.handlerRun]
      | .timeout => [Ev.handlerRun]
    let resp : RespKind :=
      match outcome with
      | .ok => .success
      | .exn => .errorResp .apiException
      | .timeout => .errorResp .timeout
    { events := Ev.mwSet (some t) :: Ev.viewSet (some a) ::
        (hevs ++ [Ev.viewSet none, Ev.mwSet none])
      response := resp
      registry := r1 }

/-- A request carrying no tenant indicator and no authenticated
principal. -/
def noIndicatorReq : Request :=
  { xTenantId := none, userTenant := none, tenantInfo := none }

/-- `Restaurants/serializers.py` `AliasContextMixin.alias`: read the
`alias` key of the serializer context; raise RuntimeError when it is
missing or falsy, otherwise return it. -/
def alias_property (ctx : Option String) : Except Err String :=
  match ctx with
  | none => .error .runtimeError
  | some a => if a.isEmpty then .error .runtimeError else .ok a

/-- Request body of `RegisterTenantDatabaseView.post`. -/
structure RegisterTenantReq where
  tenant_id : Option String
  db_name : Option String
  db_user : Option String
  db_password : Option String
  db_host : Option String
  db_port : Option Nat
  deriving DecidableEq, Repr

/-- Modelled from the spec: the explicit-parameter mode of
`register_tenant_database` in `Restaurants/utils.py` (not under src/):
idempotently add or replace the connection parameters of a tenant and
report success (spec section 4.1). -/
def register_tenant_database_explicit (tid : String) (p : ConnParams)
    (r : Registry) : Bool × Registry :=
  (true, { r with tenants := (tid, p) :: r.tenants.filter (fun q => q.1 != tid) })

/-- `Restaurants/views.py` `RegisterTenantDatabaseView.post`: build the
db config with HOST and PORT defaults; when tenant_id or any of NAME,
USER, PASSWORD is falsy, return 400 without touching the registry;
otherwise call `register_tenant_database` and answer 201 on success, 500
on failure.  The Bool reports whether `register_tenant_database` was
invoked. -/
def registerTenantDatabasePost (req : RegisterTenantReq) (r : Registry) :
    Nat × Registry × Bool :=
  if !truthy req.tenant_id ||
      !(truthy req.db_name && truthy req.db_user && truthy req.db_password)
  then (400, r, false)
  else
    let cfg : ConnParams :=
      { name := req.db_name.getD "", user := req.db_user.getD ""
        password := req.db_password.getD ""
        host := req.db_host.getD "localhost", port := req.db_port.getD 5432 }
    let res := register_tenant_database_explicit (req.tenant_id.getD "") cfg r
    if res.1 then (201, res.2, true) else (500, res.2, true)

/-- Request body of `RegisterDBByClientAPIView.post`. -/
structure RegisterByClientReq where
  client_id : Option String
  client_username : Option String
  deriving DecidableEq, Repr

/-- Python `str.isdigit` on a string: nonempty and all characters
digits. -/
def pyIsDigit (s : String) : Bool :=
  !s.isEmpty && s.all Char.isDigit

/-- `Restaurants/views.py` `RegisterDBByClientAPIView.post`: 400 when
neither client_id nor client_username is truthy; otherwise run
`ensure_alias_for_client` with `int(client_id)` when the id is numeric
and with the username only when no id was sent; when DEBUG or the
ASSET_AUTO_MIGRATE environment variable equals "1", migrate the app on
the new alias; answer 201 with the alias, or 400 when anything raised.
Returns (status code, alias of the 201 body, registry, migrated
aliases). -/
def registerDBByClientPost (req : RegisterByClientReq) (debug : Bool)
    (autoMigrate : String) (r : Registry) :
    Nat × Option String × Registry × List String :=
  if !truthy req.client_id && !truthy req.client_username then
    (400, none, r, [])
  else
    let cidArg : Option Nat :=
      match req.client_id with
      | some s => if pyIsDigit s then s.toNat? else none
      | none => none
    let cuArg : Option String :=
      if truthy req.client_id then none else req.client_username
    match ensure_alias_for_client cidArg cuArg r with
    | .error _ => (400, none, r, [])
    | .ok (a, r') =>
      let migs := if debug || autoMigrate == "1" then [a] else []
      (201, some a, r', migs)

/-- A row of a model inheriting `BaseModel` of `Restaurants/models.py`:
an arbitrary payload plus the audit and soft-delete columns relevant
here. -/
structure BaseRow (α : Type) where
  payload : α
  is_active : Bool
  is_deleted : Bool
  deriving DecidableEq, Repr

/-- `Restaurants/models.py` `ActiveManager.get_queryset`: the default
`objects` manager, filtering `is_deleted=False`. -/
def ActiveManager_get_queryset {α : Type} (db : List (BaseRow α)) :
    List (BaseRow α) :=
  db.filter (fun row => row.is_deleted == false)

/-- `Restaurants/models.py` `DeletedManager.get_queryset`: the
`deleted_objects` manager, filtering `is_deleted=True`. -/
def DeletedManager_get_queryset {α : Type} (db : List (BaseRow α)) :
    List (BaseRow α) :=
  db.filter (fun row => row.is_deleted == true)

/-- `Restaurants/models.py` `all_objects`: the plain manager, returning
every record. -/
def all_objects_get_queryset {α : Type} (db : List (BaseRow α)) :
    List (BaseRow α) :=
  db

/-- `Restaurants/models.py` `InventoryItem`: the fields used by
`adjust_qty` (quantities are exact decimals, modelled as rationals). -/
structure InvItem where
  sku : String
  current_qty : Rat
  deriving DecidableEq, Repr

/-- `Restaurants/models.py` `InventoryItem.adjust_qty`: set current_qty
to `max(current_qty + delta, 0)` and save. -/
def adjust_qty (item : InvItem) (delta : Rat) : InvItem :=
  { item with current_qty := max (item.current_qty + delta) 0 }

/-- Movement kinds of `Restaurants/models.py` (`MOVEMENT_CHOICES`). -/
inductive MovementType
  | IN
  | OUT
  | TRANSFER
  deriving DecidableEq, Repr

/-- `Restaurants/models.py` `InventoryMovement`: the fields the signal
reads. -/
structure Movement where
  movement_type : MovementType
  qty : Rat
  deriving DecidableEq, Repr

/-- The concrete model fields of `InventoryAudit` in
`Restaurants/models.py`: the `BaseModel` columns plus `action`, `item`,
`qty_before`, `qty_after` (the `user_id`, `timestamp` and `details`
fields are commented out in the source). -/
def inventoryAuditFields : List String :=
  ["id", "created_at", "updated_at", "created_by_id", "updated_by_id",
   "is_active", "is_deleted", "deleted_at", "deleted_by_id",
   "action", "item", "qty_before", "qty_after"]

/-- The keyword arguments `_apply_movement_to_item` passes to
`InventoryAudit.objects.create`. -/
def auditCreateKwargs : List String :=
  ["action", "user_id", "item", "qty_before", "qty_after", "details"]

/-- Django `Model.__init__` semantics for `InventoryAudit.objects.create`:
a keyword argument that is not a model field raises TypeError; otherwise
one audit row is appended. -/
def inventoryAuditCreate (kwargs : List String) (audits : List String) :
    Except Err (List String) :=
  if (kwargs.filter (fun k => !inventoryAuditFields.contains k)).isEmpty
  then .ok ("audit" :: audits)
  else .error .typeError

/-- `Restaurants/models.py` `_apply_movement_to_item` (post_save signal,
`created=True`): adjust the item quantity for IN/OUT, touch
`instance.to_location` for TRANSFER (an attribute the model does not
define, so Python raises AttributeError), then create the audit record
with the kwargs listed above. -/
def apply_movement_to_item (m : Movement) (item : InvItem)
    (audits : List String) : Except Err (InvItem × List String) :=
  match m.movement_type with
  | .IN =>
    let item' := adjust_qty item m.qty
    (inventoryAuditCreate auditCreateKwargs audits).map (fun as => (item', as))
  | .OUT =>
    let item' := adjust_qty item (-m.qty)
    (inventoryAuditCreate auditCreateKwargs audits).map (fun as => (item', as))
  | .TRANSFER => .error .attributeError

/-- `Restaurants/views.py` `InventoryMovementViewSet.create`: the
movement is saved inside `transaction.atomic(using=alias)`, which fires
the post-save signal; an exception raised by the signal rolls the whole
transaction back, leaving the item and the audit table unchanged.
Returns (error if any, resulting item, resulting audits). -/
def movementCreateResult (m : Movement) (item : InvItem)
    (audits : List String) : Option Err × InvItem × List String :=
  match apply_movement_to_item m item audits with
  | .ok (item', as) => (none, item', as)
  | .error e => (some e, item, audits)

/-- Claim C1 as stated: under any interleaving of two requests with
different aliases, every read observes the alias set by the reading unit
itself. -/
def claimC1 : Prop :=
  ∀ (a b : String) (sched : List TOp), a ≠ b →
    Interleaving sched (requestCtxOps 1 a) (requestCtxOps 2 b) →
    ∀ p ∈ runCtx sched none, p.2 = some (if p.1 = 1 then a else b)

/-- Claim C2 as stated: for every request and handler outcome the tenant
context is cleared exactly once before the response is returned, and the
current tenant afterwards is none. -/
def claimC2 : Prop :=
  ∀ (r : Registry) (req : Request) (outcome : Outcome),
    (pipeline r req outcome).events.countP isClearEv = 1 ∧
    runSlot (pipeline r req outcome).events none = none

/-- Claim C3 as stated, for the header path: an unknown tenant indicator
is never silently downgraded to operating on the fixed default tenant
database. -/
def claimC3 : Prop :=
  ∀ (r : Registry) (hdr : String), r.registered hdr = false →
    hdr ≠ "vcnew_db" → mwTenant r (some hdr) ≠ "vcnew_db"

/-- Claim C4 as stated: a request with no tenant indicator and no
authenticated principal fails with AuthenticationError, the tenant
context is never set for that request, and no database access occurs. -/
def claimC4 : Prop :=
  ∀ (r : Registry) (outcome : Outcome),
    (pipeline r noIndicatorReq outcome).response =
      .errorResp .authenticationFailed ∧
    (pipeline r noIndicatorReq outcome).events.countP isTenantSetEv = 0 ∧
    (pipeline r noIndicatorReq outcome).events.countP isDbAccessEv = 0

/-- A registry holding only the fixed default tenant database. -/
def defaultOnlyRegistry : Registry :=
  { tenants := [("vcnew_db", synthesizeParams "vcnew_db")], schemaInits := [] }

/-- The empty registry. -/
def emptyRegistry : Registry :=
  { tenants := [], schemaInits := [] }

/-- A concrete interleaving of the context operations of two requests
with aliases db_one and db_two in which both set the shared slot before
either reads it. -/
def interleavedSched : List TOp :=
  [⟨1, .setT (some "db_one")⟩, ⟨2, .setT (some "db_two")⟩,
   ⟨1, .readT⟩, ⟨2, .readT⟩, ⟨1, .setT none⟩, ⟨2, .setT none⟩]

theorem ensure_fst (x : ClientIdent) (r : Registry) :
    (ensure x r).1 = deriveAlias x := by
  by_cases h : r.registered (deriveAlias x) = true
  · simp only [ensure]
    rw [if_pos h]
  · simp only [ensure]
    rw [if_neg h]

theorem ensure_registers (x : ClientIdent) (r : Registry) :
    (ensure x r).2.registered (deriveAlias x) = true := by
  by_cases h : r.registered (deriveAlias x) = true
  · simp only [ensure]
    rw [if_pos h]
    exact h
  · simp only [ensure]
    rw [if_neg h]
    simp [Registry.registered]

theorem ensure_skip (x : ClientIdent) (r : Registry)
    (h : r.registered (deriveAlias x) = true) :
    ensure x r = (deriveAlias x, r) := by
  simp only [ensure]
  rw [if_pos h]

theorem ensure_idem (x : ClientIdent) (r : Registry) :
    ensure x (ensure x r).2 = ensure x r := by
  have h1 := ensure_registers x r
  have h2 := ensure_skip x (ensure x r).2 h1
  have h3 := ensure_fst x r
  rw [h2, ← h3]

theorem ensure_alias_for_client_registers (cid : Option Nat)
    (cu : Option String) (r r' : Registry) (a : String)
    (h : ensure_alias_for_client cid cu r = .ok (a, r')) :
    r'.registered a = true := by
  unfold ensure_alias_for_client at h
  cases cid with
  | some n =>
    have ha : a = (ensure (.byId n) r).1 := by
      cases hv : ensure (.byId n) r with
      | mk a1 r1 => simp [hv] at h; exact h.1.symm
    have hr : r' = (ensure (.byId n) r).2 := by
      cases hv : ensure (.byId n) r with
      | mk a1 r1 => simp [hv] at h; exact h.2.symm
    rw [ha, hr, ensure_fst]
    exact ensure_registers _ _
  | none =>
    cases cu with
    | some u =>
      have ha : a = (ensure (.byUsername u) r).1 := by
        cases hv : ensure (.byUsername u) r with
        | mk a1 r1 => simp [hv] at h; exact h.1.symm
      have hr : r' = (ensure (.byUsername u) r).2 := by
        cases hv : ensure (.byUsername u) r with
        | mk a1 r1 => simp [hv] at h; exact h.2.symm
      rw [ha, hr, ensure_fst]
      exact ensure_registers _ _
    | none => simp at h

theorem ensure_alias_ready_idem (t : Option TenantInfo) (r : Registry)
    (a : String) (r1 : Registry)
    (h : ensure_alias_ready t r = .ok (a, r1)) :
    ensure_alias_ready t r1 = .ok (a, r1) := by
  unfold ensure_alias_ready at h ⊢
  cases t with
  | none => simp at h
  | some tv =>
    cases hA : tv.aliasVal with
    | none => simp [hA] at h
    | some a0 =>
      simp only [hA] at h ⊢
      by_cases hreg : r.registered a0 = true
      · rw [if_pos hreg] at h
        simp only [Except.ok.injEq, Prod.mk.injEq] at h
        obtain ⟨ha, hr⟩ := h
        subst ha
        subst hr
        rw [if_pos hreg]
      · rw [if_neg hreg] at h
        by_cases hcu : truthy tv.client_username = true
        · rw [if_pos hcu] at h
          simp only [Except.ok.injEq, Prod.mk.injEq] at h
          obtain ⟨ha, hr⟩ := h
          subst ha
          by_cases hreg1 : r1.registered a0 = true
          · rw [if_pos hreg1]
          · rw [if_neg hreg1, if_pos hcu]
            have hu : r1.registered
                (deriveAlias (.byUsername (tv.client_username.getD ""))) = true := by
              rw [← hr]
              exact ensure_registers _ _
            rw [ensure_skip _ _ hu]
        · rw [if_neg hcu] at h
          by_cases hcid : truthy tv.client_id = true
          · rw [if_pos hcid] at h
            cases hp : (tv.client_id.getD "").toNat? with
            | none => simp [hp] at h
            | some n =>
              simp only [hp] at h
              simp only [Except.ok.injEq, Prod.mk.injEq] at h
              obtain ⟨ha, hr⟩ := h
              subst ha
              by_cases hreg1 : r1.registered a0 = true
              · rw [if_pos hreg1]
              · rw [if_neg hreg1, if_neg hcu, if_pos hcid]
                simp only [hp]
                have hu : r1.registered (deriveAlias (.byId n)) = true := by
                  rw [← hr]
                  exact ensure_registers _ _
                rw [ensure_skip _ _ hu]
          · rw [if_neg hcid] at h
            by_cases hpre : a0.startsWith "client_" = true
            · rw [if_pos hpre] at h
              cases hp : (a0.drop 7).toNat? with
              | none => simp [hp] at h
              | some n =>
                simp only [hp] at h
                simp only [Except.ok.injEq, Prod.mk.injEq] at h
                obtain ⟨ha, hr⟩ := h
                subst ha
                by_cases hreg1 : r1.registered a0 = true
                · rw [if_pos hreg1]
                · rw [if_neg hreg1, if_neg hcu, if_neg hcid, if_pos hpre]
                  simp only [hp]
                  have hu : r1.registered (deriveAlias (.byId n)) = true := by
                    rw [← hr]
                    exact ensure_registers _ _
                  rw [ensure_skip _ _ hu]
            · rw [if_neg hpre] at h
              simp at h

/-- Claim C9: for every model inheriting BaseModel, the default manager
(objects) returns exactly the records with is_deleted false, the
deleted_objects manager returns exactly those with is_deleted true, and
all_objects returns every record. -/
theorem c9_soft_delete_managers {α : Type} (db : List (BaseRow α))
    (row : BaseRow α) :
    (row ∈ ActiveManager_get_queryset db ↔
      row ∈ db ∧ row.is_deleted = false) ∧
    (row ∈ DeletedManager_get_queryset db ↔
      row ∈ db ∧ row.is_deleted = true) ∧
    (row ∈ all_objects_get_queryset db ↔ row ∈ db) := by
  refine ⟨?_, ?_, Iff.rfl⟩ <;>
    simp [ActiveManager_get_queryset, DeletedManager_get_queryset,
      List.mem_filter]

/-- Claim C8: the serializer alias accessor raises when no tenant alias
is bound in the context and returns exactly the bound alias when a
(non-empty) alias is bound. -/
theorem c8_alias_accessor (a : String) (h : a.isEmpty = false) :
    alias_property none = .error .runtimeError ∧
    alias_property (some a) = .ok a := by
  refine ⟨rfl, ?_⟩
  simp [alias_property, h]

/-- Witness for claim C8 at the concrete alias vcnew_db. -/
theorem c8_alias_accessor_witness :
    alias_property none = .error .runtimeError ∧
    alias_property (some "vcnew_db") = .ok "vcnew_db" :=
  c8_alias_accessor "vcnew_db" (by decide)

/-- Claim C6: a tenant-registration request missing the tenant id, the
database name, the user or the credential gets a 400 client-error
response, the registry is unchanged and the registration helper is never
invoked. -/
theorem c6_register_missing_fields (req : RegisterTenantReq)
    (r : Registry)
    (h : truthy req.tenant_id = false ∨ truthy req.db_name = false ∨
      truthy req.db_user = false ∨ truthy req.db_password = false) :
    registerTenantDatabasePost req r = (400, r, false) := by
  unfold registerTenantDatabasePost
  rcases h with h | h | h | h <;> simp [h]

/-- Witness for claim C6: a request without a password. -/
theorem c6_register_missing_fields_witness :
    registerTenantDatabasePost
      ⟨some "t1", some "db1", some "user1", none, none, none⟩
      emptyRegistry = (400, emptyRegistry, false) :=
  c6_register_missing_fields _ _ (Or.inr (Or.inr (Or.inr rfl)))

/-- Claim C7: when the registry bootstrap endpoint answers with a created
(201) body carrying an alias, that alias is registered in the resulting
registry, and the schema migration ran exactly when DEBUG or the
ASSET_AUTO_MIGRATE flag equals "1".  (`ensure_alias_for_client` is
modelled from the spec, src/ lacking `Restaurants/utils.py`.) -/
theorem c7_bootstrap_registers (req : RegisterByClientReq) (debug : Bool)
    (am : String) (r : Registry) (code : Nat) (a : String) (r' : Registry)
    (migs : List String)
    (h : registerDBByClientPost req debug am r = (code, some a, r', migs)) :
    code = 201 ∧ r'.registered a = true ∧
    migs = (if debug || am == "1" then [a] else []) := by
  unfold registerDBByClientPost at h
  by_cases hg : (!truthy req.client_id && !truthy req.client_username) = true
  · rw [if_pos hg] at h
    simp at h
  · rw [if_neg hg] at h
    dsimp only at h
    cases hefc : ensure_alias_for_client
        (match req.client_id with
         | some s => if pyIsDigit s then s.toNat? else none
         | none => none)
        (if truthy req.client_id then none else req.client_username) r with
    | error e =>
      rw [hefc] at h
      simp at h
    | ok p =>
      obtain ⟨a0, r0⟩ := p
      rw [hefc] at h
      simp only [Prod.mk.injEq, Option.some.injEq] at h
      obtain ⟨hc, ha, hr, hm⟩ := h
      subst ha
      subst hr
      subst hc
      exact ⟨rfl, ensure_alias_for_client_registers _ _ _ _ _ hefc, hm.symm⟩

/-- Witness for claim C7: bootstrap with client_username acme on the
empty registry and the migration gate off. -/
theorem c7_bootstrap_registers_witness :
    (201 : Nat) = 201 ∧
    Registry.registered
      ⟨[("acme", synthesizeParams "acme")], ["acme"]⟩ "acme" = true ∧
    ([] : List String) =
      (if (false : Bool) || ("0" == "1") then ["acme"] else []) :=
  c7_bootstrap_registers ⟨none, some "acme"⟩ false "0" emptyRegistry 201
    "acme" ⟨[("acme", synthesizeParams "acme")], ["acme"]⟩
    [] (by rfl)

/-- Claim C5: the ensure operation is idempotent and deterministic —
running it again after it succeeded changes nothing (so registration and
schema creation happen at most once and the same descriptor comes back),
ensure on an already-registered alias skips registration entirely, and
the view-level `_ensure_alias_ready` is likewise idempotent on the
registry state its first call produced.  (`ensure` is modelled from the
spec, src/ lacking `Restaurants/utils.py`; determinism holds because the
operations are functions of their inputs.) -/
theorem c5_ensure_idempotent (x : ClientIdent) (rA rB r0 : Registry)
    (t : Option TenantInfo) (a : String) (r1 : Registry)
    (hreg : rB.registered (deriveAlias x) = true)
    (h : ensure_alias_ready t r0 = .ok (a, r1)) :
    ensure x (ensure x rA).2 = ensure x rA ∧
    ensure x rB = (deriveAlias x, rB) ∧
    ensure_alias_ready t r1 = .ok (a, r1) :=
  ⟨ensure_idem x rA, ensure_skip x rB hreg,
    ensure_alias_ready_idem t r0 a r1 h⟩

/-- Witness for claim C5: ensure for username beta on a registry already
holding beta, and `_ensure_alias_ready` provisioning tenant_a through
its username claim on the empty registry. -/
theorem c5_ensure_idempotent_witness :
    ensure (.byUsername "beta")
        (ensure (.byUsername "beta") emptyRegistry).2 =
      ensure (.byUsername "beta") emptyRegistry ∧
    ensure (.byUsername "beta")
        ⟨[("beta", synthesizeParams "beta")], []⟩ =
      (deriveAlias (.byUsername "beta"),
        ⟨[("beta", synthesizeParams "beta")], []⟩) ∧
    ensure_alias_ready (some ⟨some "tenant_a", some "tenant_a", none⟩)
        ⟨[("tenant_a", synthesizeParams "tenant_a")], ["tenant_a"]⟩ =
      .ok ("tenant_a",
        ⟨[("tenant_a", synthesizeParams "tenant_a")], ["tenant_a"]⟩) :=
  c5_ensure_idempotent (.byUsername "beta") emptyRegistry
    ⟨[("beta", synthesizeParams "beta")], []⟩ emptyRegistry
    (some ⟨some "tenant_a", some "tenant_a", none⟩) "tenant_a"
    ⟨[("tenant_a", synthesizeParams "tenant_a")], ["tenant_a"]⟩
    (by rfl) (by rfl)

/-- Claim C1 counterexample: with the module-level global context slot, a
concrete interleaving of two requests with aliases db_one and db_two
makes request 1 observe db_two during its data access, so the isolation
property as stated is false.  (`FB/db_router.py` is modelled from the
spec, which records that the source keeps the current tenant in a single
module-level variable.) -/
theorem c1_counterexample : ¬ claimC1 := by
  intro h
  have hint : Interleaving interleavedSched
      (requestCtxOps 1 "db_one") (requestCtxOps 2 "db_two") :=
    .left (.right (.left (.right (.left (.right .nil)))))
  have hmem : ((1 : Nat), some "db_two") ∈
      runCtx interleavedSched none := by decide
  have h2 := h "db_one" "db_two" interleavedSched (by decide) hint
    ((1 : Nat), some "db_two") hmem
  exact absurd h2 (by decide)

/-- Claim C1 amended: with the shared module-level context slot, tenant
isolation holds only when the two requests' context operations do not
interleave — under serial execution each unit of work observes exactly
the alias it set itself. -/
theorem c1_serial_isolation (a b : String) :
    runCtx (requestCtxOps 1 a ++ requestCtxOps 2 b) none =
      [(1, some a), (2, some b)] :=
  rfl

/-- Claim C2 counterexample: on a concrete request the tenant context is
cleared twice before the response is returned — once by the view's
finalize_response and once by the middleware's process_response — so
"exactly once" is false. -/
theorem c2_counterexample : ¬ claimC2 := by
  intro h
  have h2 := (h defaultOnlyRegistry noIndicatorReq .ok).1
  exact absurd h2 (by decide)

/-- Claim C2 amended: for every request and every handler outcome
(normal return, raised error, timeout) the tenant context is cleared at
least once before the response is returned — in fact exactly twice, by
finalize_response and by process_response — and replaying the request's
context writes over any starting slot leaves the current tenant none. -/
theorem c2_context_cleared (r : Registry) (req : Request)
    (outcome : Outcome) (s : Option String) :
    (pipeline r req outcome).events.countP isClearEv = 2 ∧
    runSlot (pipeline r req outcome).events s = none := by
  unfold pipeline
  cases hefc : ensure_alias_ready (getTenantFromRequest req) r with
  | error e =>
    simp only [hefc]
    refine ⟨?_, ?_⟩ <;> trivial
  | ok p =>
    obtain ⟨a, r1⟩ := p
    simp only [hefc]
    cases outcome <;> refine ⟨?_, ?_⟩ <;> trivial

/-- Claim C3 counterexample: the middleware maps the unknown header
ghost_db to the fixed default tenant vcnew_db without raising, so
"never silently downgraded to a fixed default tenant database" is
false. -/
theorem c3_counterexample : ¬ claimC3 := by
  intro h
  exact h defaultOnlyRegistry "ghost_db" (by decide) (by decide) (by decide)

/-- Claim C3 amended: the view-layer resolution raises immediately (an
APIException) when the alias is neither registered nor derivable, but
the header middleware silently downgrades an unknown X-Tenant-ID to the
fixed default tenant vcnew_db instead of failing. -/
theorem c3_resolution (r1 : Registry) (hdr : String) (t : TenantInfo)
    (r2 : Registry) (a : String)
    (h1 : r1.registered hdr = false)
    (h2 : t.aliasVal = some a)
    (h3 : r2.registered a = false)
    (h4 : truthy t.client_username = false)
    (h5 : truthy t.client_id = false)
    (h6 : a.startsWith "client_" = false) :
    mwTenant r1 (some hdr) = "vcnew_db" ∧
    ensure_alias_ready (some t) r2 = .error .apiException := by
  constructor
  · simp [mwTenant, h1]
  · simp [ensure_alias_ready, h2, h3, h4, h5, h6]

/-- Witness for the amended claim C3: header ghost_db against a registry
holding only vcnew_db, and a token alias acme that is neither registered
nor derivable. -/
theorem c3_resolution_witness :
    mwTenant defaultOnlyRegistry (some "ghost_db") = "vcnew_db" ∧
    ensure_alias_ready (some ⟨some "acme", none, none⟩)
      defaultOnlyRegistry = .error .apiException :=
  c3_resolution defaultOnlyRegistry "ghost_db" ⟨some "acme", none, none⟩
    defaultOnlyRegistry "acme" (by decide) rfl (by decide) rfl rfl
    (by decide)

/-- Claim C4 counterexample: on a request with no tenant indicator and no
principal the middleware still binds the default tenant vcnew_db into
the context before the view fails, so "the tenant context is never set
for that request" is false. -/
theorem c4_counterexample : ¬ claimC4 := by
  intro h
  have h2 := (h emptyRegistry .ok).2.1
  exact absurd h2 (by decide)

/-- Claim C4 amended: a request with no tenant indicator and no
authenticated principal fails with AuthenticationFailed during alias
resolution; the view never binds an alias, the handler never runs, no
data access occurs and the registry is unchanged — but the middleware
has already bound the default alias into the context once. -/
theorem c4_auth_failure (r : Registry) (outcome : Outcome) :
    (pipeline r noIndicatorReq outcome).response =
      .errorResp .authenticationFailed ∧
    (pipeline r noIndicatorReq outcome).events.countP isViewSetSomeEv = 0 ∧
    (pipeline r noIndicatorReq outcome).events.countP isDbAccessEv = 0 ∧
    (pipeline r noIndicatorReq outcome).events.countP isHandlerEv = 0 ∧
    (pipeline r noIndicatorReq outcome).events.countP isMwSetSomeEv = 1 ∧
    (pipeline r noIndicatorReq outcome).registry = r := by
  have hefc : ensure_alias_ready (getTenantFromRequest noIndicatorReq) r =
      .error .authenticationFailed := rfl
  unfold pipeline
  simp only [hefc]
  refine ⟨?_, ?_, ?_, ?_, ?_, ?_⟩ <;> trivial

/-- Claim C10: adjust_qty clamps current_qty at zero as claimed (and on
the concrete item it would clamp 3 - 5 to exactly 0), but creating the
stock-OUT movement through the view aborts: the post-save signal passes
the keyword arguments user_id and details to InventoryAudit.objects.create
although InventoryAudit defines no such fields, Django raises TypeError,
and the surrounding atomic transaction rolls back, leaving current_qty
at 3 instead of 0. -/
theorem c10_movement_out_rolls_back :
    (∀ (item : InvItem) (d : Rat),
        (adjust_qty item d).current_qty = max (item.current_qty + d) 0) ∧
    (adjust_qty ⟨"FLOUR", 3⟩ (-5)).current_qty = 0 ∧
    movementCreateResult ⟨.OUT, 5⟩ ⟨"FLOUR", 3⟩ [] =
      (some .typeError, ⟨"FLOUR", 3⟩, []) := by
  refine ⟨fun item d => rfl, ?_, ?_⟩
  · show max ((3 : Rat) + (-5)) 0 = 0
    norm_num
  · rfl
